import Mathlib

/-!
Verification development for the DISHA disaster-response repository.

The repository implements, in TypeScript, a dashboard frontend
(`Frontend_Dashboard/disha-dashboard`) and a citizen-facing map frontend
(`disha_frontend-main`).  The geometric and classification helpers
(`calculateDistance`, `isInThreatZone`, `getSeverity`), the trigger-form
validation (`TriggerForm.handleSubmit`), the in-memory disaster registry
(`App.handleDisasterTriggered`) and the evacuation-route sorting
(`EvacuationRoutes.fetchEvacuationRoutes`) are embedded below directly from
the source.  The orchestration engine of the design documents (Alert
Prioritizer, Alert Dispatcher) has no implementation in the repository; those
parts are modelled from the specification text and are marked as such.

JavaScript numbers are IEEE doubles.  Where the special values NaN and
±Infinity matter (unguarded division in `getSeverity`), numbers are modelled
as exact rationals extended with the three special values; arithmetic on
finite values is exact rather than rounded.  The transcendental haversine
formula is modelled over the real numbers.
-/

/-- The four severity levels.  The dashboard source uses the string union
`'low' | 'medium' | 'high' | 'critical'`; the design documents use the
enumeration LOW < MEDIUM < HIGH < CRITICAL.  Both are the same four-point
scale. -/
inductive Level where
  | low
  | medium
  | high
  | critical
deriving DecidableEq, Repr

/-- Rank of a level under the total order CRITICAL > HIGH > MEDIUM > LOW. -/
def levelRank : Level → Nat
  | Level.low => 0
  | Level.medium => 1
  | Level.high => 2
  | Level.critical => 3

/-- A JavaScript number: an exact finite value, +Infinity, -Infinity or NaN.
(-0 is identified with 0; finite arithmetic is exact.) -/
inductive JSVal where
  | finite (q : ℚ)
  | posInf
  | negInf
  | nan
deriving DecidableEq, Repr

/-- JavaScript division, including the unguarded zero-denominator cases:
`x / 0` is +Infinity for positive `x`, -Infinity for negative `x`, and NaN
for `0 / 0`. -/
def jsDiv : JSVal → JSVal → JSVal
  | JSVal.nan, _ => JSVal.nan
  | _, JSVal.nan => JSVal.nan
  | JSVal.finite a, JSVal.finite b =>
      if b = 0 then
        if 0 < a then JSVal.posInf else if a < 0 then JSVal.negInf else JSVal.nan
      else JSVal.finite (a / b)
  | JSVal.finite _, JSVal.posInf => JSVal.finite 0
  | JSVal.finite _, JSVal.negInf => JSVal.finite 0
  | JSVal.posInf, JSVal.finite b => if b < 0 then JSVal.negInf else JSVal.posInf
  | JSVal.negInf, JSVal.finite b => if b < 0 then JSVal.posInf else JSVal.negInf
  | JSVal.posInf, JSVal.posInf => JSVal.nan
  | JSVal.posInf, JSVal.negInf => JSVal.nan
  | JSVal.negInf, JSVal.posInf => JSVal.nan
  | JSVal.negInf, JSVal.negInf => JSVal.nan

/-- JavaScript multiplication on the extended number line. -/
def jsMul : JSVal → JSVal → JSVal
  | JSVal.nan, _ => JSVal.nan
  | _, JSVal.nan => JSVal.nan
  | JSVal.finite a, JSVal.finite b => JSVal.finite (a * b)
  | JSVal.posInf, JSVal.finite b =>
      if 0 < b then JSVal.posInf else if b < 0 then JSVal.negInf else JSVal.nan
  | JSVal.negInf, JSVal.finite b =>
      if 0 < b then JSVal.negInf else if b < 0 then JSVal.posInf else JSVal.nan
  | JSVal.finite a, JSVal.posInf =>
      if 0 < a then JSVal.posInf else if a < 0 then JSVal.negInf else JSVal.nan
  | JSVal.finite a, JSVal.negInf =>
      if 0 < a then JSVal.negInf else if a < 0 then JSVal.posInf else JSVal.nan
  | JSVal.posInf, JSVal.posInf => JSVal.posInf
  | JSVal.posInf, JSVal.negInf => JSVal.negInf
  | JSVal.negInf, JSVal.posInf => JSVal.negInf
  | JSVal.negInf, JSVal.negInf => JSVal.posInf

/-- The JavaScript comparison `a <= b`: false whenever either side is NaN. -/
def jsLe : JSVal → JSVal → Bool
  | JSVal.nan, _ => false
  | _, JSVal.nan => false
  | JSVal.finite a, JSVal.finite b => decide (a ≤ b)
  | JSVal.negInf, _ => true
  | JSVal.finite _, JSVal.posInf => true
  | JSVal.finite _, JSVal.negInf => false
  | JSVal.posInf, JSVal.posInf => true
  | JSVal.posInf, JSVal.finite _ => false
  | JSVal.posInf, JSVal.negInf => false

/-- `getSeverity` from
`Frontend_Dashboard/disha-dashboard/project/src/types/index.ts`
(geolocation utilities): computes `percentage = (distance / radiusKm) * 100`
and classifies `percentage <= 25` as critical, `<= 50` as high, `<= 75` as
medium, and everything else (including NaN comparisons) as low.  The
division by `radiusKm` is unguarded, exactly as in the source. -/
def getSeverity (distance radiusKm : JSVal) : Level :=
  let percentage := jsMul (jsDiv distance radiusKm) (JSVal.finite 100)
  if jsLe percentage (JSVal.finite 25) then Level.critical
  else if jsLe percentage (JSVal.finite 50) then Level.high
  else if jsLe percentage (JSVal.finite 75) then Level.medium
  else Level.low

/-- Modelled from the spec: the Alert Prioritizer implementation is not in
the repository; this is the score-to-level mapping of section 4.3,
`score ≥ 0.85 → CRITICAL`, `≥ 0.65 → HIGH`, `≥ 0.35 → MEDIUM`, else LOW. -/
def scoreToLevel (score : ℚ) : Level :=
  if 0.85 ≤ score then Level.critical
  else if 0.65 ≤ score then Level.high
  else if 0.35 ≤ score then Level.medium
  else Level.low

/-- Core of `getSeverity` as a function of the already-computed finite
percentage; used to factor proofs about the finite-input case. -/
def sevOfPercentage (p : ℚ) : Level :=
  if p ≤ 25 then Level.critical
  else if p ≤ 50 then Level.high
  else if p ≤ 75 then Level.medium
  else Level.low

example : getSeverity (JSVal.finite 20) (JSVal.finite 100) = Level.critical := by
  norm_num [getSeverity, jsDiv, jsMul, jsLe]

example : getSeverity (JSVal.finite 0) (JSVal.finite 0) = Level.low := by
  norm_num [getSeverity, jsDiv, jsMul, jsLe]

example : getSeverity (JSVal.finite (-1)) (JSVal.finite 0) = Level.critical := by
  norm_num [getSeverity, jsDiv, jsMul, jsLe]

example : getSeverity (JSVal.finite 5) (JSVal.finite 5) = Level.low := by
  norm_num [getSeverity, jsDiv, jsMul, jsLe]

example : scoreToLevel 0.8 = Level.high := by norm_num [scoreToLevel]

/-- A latitude/longitude pair, the `Location` interface shared by both
frontends. -/
structure Location where
  lat : ℝ
  lon : ℝ

/-- The JavaScript `Math.atan2(y, x)` function over the reals. -/
noncomputable def jsAtan2 (y x : ℝ) : ℝ :=
  if 0 < x then Real.arctan (y / x)
  else if x < 0 ∧ 0 ≤ y then Real.arctan (y / x) + Real.pi
  else if x < 0 ∧ y < 0 then Real.arctan (y / x) - Real.pi
  else if x = 0 ∧ 0 < y then Real.pi / 2
  else if x = 0 ∧ y < 0 then -(Real.pi / 2)
  else 0

/-- `toRad` from the dashboard geolocation utilities
(`Frontend_Dashboard/.../types/index.ts`): `degrees * (Math.PI / 180)`. -/
noncomputable def toRad (degrees : ℝ) : ℝ := degrees * (Real.pi / 180)

/-- `calculateDistance` from the dashboard geolocation utilities: the
haversine distance in kilometers with Earth radius `R = 6371`, squares
written as `Math.sin(x) * Math.sin(x)`. -/
noncomputable def calculateDistance (point1 point2 : Location) : ℝ :=
  let R : ℝ := 6371
  let dLat := toRad (point2.lat - point1.lat)
  let dLon := toRad (point2.lon - point1.lon)
  let a := Real.sin (dLat / 2) * Real.sin (dLat / 2) +
    Real.cos (toRad point1.lat) * Real.cos (toRad point2.lat) *
      Real.sin (dLon / 2) * Real.sin (dLon / 2)
  let c := 2 * jsAtan2 (Real.sqrt a) (Real.sqrt (1 - a))
  R * c

/-- The `toRad` arrow function redefined inline in
`disha_frontend-main/src/components/EvacuationRoutes.tsx` (and
`DisasterMap.tsx`): `(deg * Math.PI) / 180`. -/
noncomputable def toRadEvac (deg : ℝ) : ℝ := deg * Real.pi / 180

/-- `calculateDistance` as redefined inline in the evacuation/map components
of `disha_frontend-main`: same haversine formula with squares written as
`Math.sin(x) ** 2`. -/
noncomputable def calculateDistanceEvac (loc1 loc2 : Location) : ℝ :=
  let R : ℝ := 6371
  let dLat := toRadEvac (loc2.lat - loc1.lat)
  let dLon := toRadEvac (loc2.lon - loc1.lon)
  let a := Real.sin (dLat / 2) ^ 2 +
    Real.cos (toRadEvac loc1.lat) * Real.cos (toRadEvac loc2.lat) *
      Real.sin (dLon / 2) ^ 2
  let c := 2 * jsAtan2 (Real.sqrt a) (Real.sqrt (1 - a))
  R * c

/-- `isInThreatZone` from the dashboard geolocation utilities: the user is in
the threat zone when the haversine distance to the center is at most
`radiusKm` (the boundary is inclusive, `distance <= radiusKm`). -/
noncomputable def isInThreatZone (userLocation threatCenter : Location)
    (radiusKm : ℝ) : Prop :=
  calculateDistance userLocation threatCenter ≤ radiusKm

/-- The `TriggerDisasterRequest` form data of the dashboard
(`Frontend_Dashboard/.../types/index.ts`).  The disaster type is kept as a
string; coordinates and radius are the numeric fields validated by
`handleSubmit`. -/
structure TriggerDisasterRequest where
  dtype : String
  latitude : ℚ
  longitude : ℚ
  radius_meters : ℚ
deriving DecidableEq, Repr

/-- The `Disaster` record of the dashboard: the triggered form data plus an
`id` (built from `Date.now().toString()`) and an ISO timestamp string. -/
structure Disaster where
  id : String
  dtype : String
  latitude : ℚ
  longitude : ℚ
  radius_meters : ℚ
  timestamp : String
deriving DecidableEq, Repr

/-- Result of one `handleSubmit` run in
`Frontend_Dashboard/.../components/TriggerForm.tsx`: the `error` and
`success` messages set on the component state, whether
`api.triggerDisaster` was invoked, and the disasters list after
`onDisasterTriggered` (which appends, per `handleDisasterTriggered` in
`App.tsx`). -/
structure SubmitResult where
  error : Option String
  success : Option String
  apiInvoked : Bool
  disasters : List Disaster
deriving DecidableEq, Repr

/-- The `Disaster` constructed in `handleSubmit` on a successful trigger:
`id := Date.now().toString()`, the form fields, and
`timestamp := new Date().toISOString()`.  `nowMs` stands for `Date.now()`
and `nowIso` for the ISO timestamp at that instant. -/
def mkDisaster (formData : TriggerDisasterRequest) (nowMs : Nat)
    (nowIso : String) : Disaster :=
  { id := toString nowMs
    dtype := formData.dtype
    latitude := formData.latitude
    longitude := formData.longitude
    radius_meters := formData.radius_meters
    timestamp := nowIso }

/-- `handleSubmit` from `TriggerForm.tsx`: validates latitude in [-90, 90],
longitude in [-180, 180] and radius at least 100 meters, in that order,
returning early with an error message and without calling the API; on a
valid form it calls `api.triggerDisaster` (`apiOk` says whether that call
succeeds) and, on success, appends the new disaster to the list. -/
def handleSubmit (formData : TriggerDisasterRequest) (apiOk : Bool)
    (nowMs : Nat) (nowIso : String) (prev : List Disaster) : SubmitResult :=
  if formData.latitude < -90 ∨ formData.latitude > 90 then
    { error := some "Latitude must be between -90 and 90", success := none
      apiInvoked := false, disasters := prev }
  else if formData.longitude < -180 ∨ formData.longitude > 180 then
    { error := some "Longitude must be between -180 and 180", success := none
      apiInvoked := false, disasters := prev }
  else if formData.radius_meters < 100 then
    { error := some "Radius must be at least 100 meters", success := none
      apiInvoked := false, disasters := prev }
  else if apiOk then
    { error := none
      success := some "triggered successfully"
      apiInvoked := true
      disasters := prev ++ [mkDisaster formData nowMs nowIso] }
  else
    { error := some "Failed to trigger disaster. Please try again."
      success := none, apiInvoked := true, disasters := prev }

/-- One trigger attempt: the submitted form, whether the backend call
succeeds, and the wall-clock values at submission time. -/
structure TriggerAttempt where
  formData : TriggerDisasterRequest
  apiOk : Bool
  nowMs : Nat
  nowIso : String
deriving DecidableEq, Repr

/-- A trigger attempt is accepted (a disaster record gets stored) iff the
form passes all three validations and the API call succeeds. -/
def acceptedTrigger (t : TriggerAttempt) : Bool :=
  !(decide (t.formData.latitude < -90 ∨ t.formData.latitude > 90)) &&
  !(decide (t.formData.longitude < -180 ∨ t.formData.longitude > 180)) &&
  !(decide (t.formData.radius_meters < 100)) &&
  t.apiOk

/-- The dashboard's active-disaster registry: the `disasters` React state of
`App.tsx`, grown by `handleDisasterTriggered` through successive
`handleSubmit` runs starting from `registry`. -/
def runTriggersFrom (registry : List Disaster) :
    List TriggerAttempt → List Disaster
  | [] => registry
  | t :: ts =>
      runTriggersFrom
        (handleSubmit t.formData t.apiOk t.nowMs t.nowIso registry).disasters ts

/-- The registry contents after a sequence of trigger attempts, starting
from the initial empty state `useState<Disaster[]>([])`. -/
def runTriggers (ts : List TriggerAttempt) : List Disaster :=
  runTriggersFrom [] ts

/-- The `Destination` of an evacuation route in
`disha_frontend-main/src/components/EvacuationRoutes.tsx`. -/
structure Destination where
  name : String
  lat : ℚ
  lon : ℚ
  distance_km : ℚ
deriving DecidableEq, Repr

/-- An `EvacuationRoute` of `EvacuationRoutes.tsx`: id, kind (hospital or
shelter, kept as a string) and destination. -/
structure EvacuationRoute where
  id : String
  rtype : String
  destination : Destination
deriving DecidableEq, Repr

/-- The comparator of `fetchEvacuationRoutes`:
`(a, b) => a.destination.distance_km - b.destination.distance_km`, i.e.
ascending distance.  JavaScript `Array.prototype.sort` is a stable sort, so
it is modelled with the stable `List.mergeSort`. -/
def routeLe (a b : EvacuationRoute) : Bool :=
  decide (a.destination.distance_km ≤ b.destination.distance_km)

/-- The route post-processing of `fetchEvacuationRoutes` in
`EvacuationRoutes.tsx` lines 88-89: sort all fetched routes by ascending
`distance_km`, then `slice(0, 4)` to keep the top four. -/
def rankRoutes (allRoutes : List EvacuationRoute) : List EvacuationRoute :=
  (allRoutes.mergeSort routeLe).take 4

/-- The named scoring inputs of a `StructuredContext` (spec section 3): any
unavailable sub-part is listed in `missing` rather than silently omitted. -/
inductive FieldName where
  | location
  | routes
  | population
  | resources
deriving DecidableEq, Repr

/-- Modelled from the spec: the `StructuredContext` consumed by the Alert
Prioritizer is not implemented in the repository; following sections 3 and
4.3, it carries the four already-normalized scoring inputs (each in [0,1])
and the `missing` field set.  A context is partial iff `missing` is
non-empty. -/
structure StructuredContext where
  affectedPopulation : ℚ
  geographicScope : ℚ
  routeCapacityMargin : ℚ
  timeSensitivity : ℚ
  missing : List FieldName
deriving DecidableEq, Repr

/-- Modelled from the spec: the `AlertPriority` record of section 3 — level,
numeric score and free-text reasoning. -/
structure AlertPriority where
  level : Level
  score : ℚ
  reasoning : String
deriving DecidableEq, Repr

/-- Modelled from the spec: the weighted score of section 4.3,
`0.40 * population + 0.25 * scope + 0.20 * routes + 0.15 * time`. -/
def weightedScore (context : StructuredContext) : ℚ :=
  0.40 * context.affectedPopulation + 0.25 * context.geographicScope +
    0.20 * context.routeCapacityMargin + 0.15 * context.timeSensitivity

/-- The uncertainty note the Prioritizer appends to `reasoning` when scoring
inputs are missing. -/
def uncertaintyNote : String :=
  " Required scoring inputs are missing; defaulting to HIGH priority."

/-- The base reasoning text produced by the Prioritizer. -/
def baseReasoning : String :=
  "Weighted severity score computed from context."

/-- Modelled from the spec: `analyze_priority` of the Alert Prioritizer
(section 4.3) is not implemented in the repository.  On a complete context
it computes the weighted score and maps it to a level through the fixed
thresholds; on a partial context (non-empty `missing` set) it defaults to
HIGH and appends an uncertainty note to the reasoning instead of raising —
the function is total, it returns an `AlertPriority` for every context. -/
def analyze_priority (context : StructuredContext) : AlertPriority :=
  if context.missing.isEmpty then
    { level := scoreToLevel (weightedScore context)
      score := weightedScore context
      reasoning := baseReasoning }
  else
    { level := Level.high
      score := 0.65
      reasoning := baseReasoning ++ uncertaintyNote }

/-- Per-tool outcome of one dispatch, spec section 3 (`DispatchResult`). -/
structure DispatchResult where
  tool : String
  delivered : Bool
deriving DecidableEq, Repr

/-- The aggregate status of a `DispatchOutcome` (spec section 3):
ALL_DELIVERED, the middle status for some-but-not-all channels succeeding
(the spec calls it PARTIAL), and ALL_FAILED. -/
inductive DispatchStatus where
  | ALL_DELIVERED
  | SOME_DELIVERED
  | ALL_FAILED
deriving DecidableEq, Repr

/-- Order of aggregate statuses: ALL_FAILED < SOME_DELIVERED <
ALL_DELIVERED, so "at least PARTIAL" means rank at least 1. -/
def statusRank : DispatchStatus → Nat
  | DispatchStatus.ALL_FAILED => 0
  | DispatchStatus.SOME_DELIVERED => 1
  | DispatchStatus.ALL_DELIVERED => 2

/-- Modelled from the spec: a `DispatchOutcome` aggregates the per-tool
results into an overall status (spec section 3). -/
structure DispatchOutcome where
  results : List DispatchResult
  overall : DispatchStatus
deriving DecidableEq, Repr

/-- A tool environment: `env tool k` says whether attempt number `k`
against `tool` succeeds.  This abstracts the external delivery channels the
Dispatcher invokes. -/
def ToolEnv : Type := String → Nat → Bool

/-- Modelled from the spec: a tool delivers iff one of its attempts within
the retry budget succeeds; it has exhausted its retry budget iff all of
them fail (section 4.4: retry the same tool up to the budget, then fall
through to the next tool). -/
def toolDelivered (env : ToolEnv) (tool : String) (budget : Nat) : Bool :=
  (List.range budget).any (env tool)

/-- Modelled from the spec: `dispatch_alerts` of the Alert Dispatcher
(section 4.4) is not implemented in the repository.  Each tool of the
selected preference list is tried with its retry budget; the aggregate
status is ALL_DELIVERED when every tool delivered, the middle (PARTIAL)
status when some but not all did, and ALL_FAILED when every tool in the
list exhausted its retries. -/
def dispatch_alerts (env : ToolEnv) (tools : List String) (budget : Nat) :
    DispatchOutcome :=
  let results := tools.map fun t => ⟨t, toolDelivered env t budget⟩
  { results := results
    overall :=
      if results.any (fun r => r.delivered) then
        if results.all (fun r => r.delivered) then DispatchStatus.ALL_DELIVERED
        else DispatchStatus.SOME_DELIVERED
      else DispatchStatus.ALL_FAILED }

/-- Modelled from the spec: an ALL_FAILED dispatch outcome is escalated to
the Agent as a reportable failure — the Agent-side handler turns it into a
failure report instead of swallowing it (section 4.4). -/
def escalateOutcome (outcome : DispatchOutcome) : Option String :=
  if outcome.overall = DispatchStatus.ALL_FAILED then
    some "dispatch failed on every channel"
  else none

/-- Modelled from the spec: the urgency key of a disaster context as seen by
`rank_concurrent_disasters` (section 4.3) — priority level, numeric score
and event timestamp. -/
structure RankedInput where
  level : Level
  score : ℚ
  timestamp : Nat
deriving DecidableEq, Repr

/-- Modelled from the spec: the ordering of section 4.3 — level descending,
then score descending, then timestamp ascending as deterministic
tiebreak. -/
def urgencyLe (a b : RankedInput) : Bool :=
  decide (levelRank b.level < levelRank a.level ∨
    (levelRank a.level = levelRank b.level ∧
      (b.score < a.score ∨ (a.score = b.score ∧ a.timestamp ≤ b.timestamp))))

/-- Modelled from the spec: `rank_concurrent_disasters` of the Alert
Prioritizer (section 4.3) is not implemented in the repository; it is the
stable sort of the contexts by the urgency order. -/
def rank_concurrent_disasters (contexts : List RankedInput) :
    List RankedInput :=
  contexts.mergeSort urgencyLe

/-- A sample tool environment where only the `sms` channel delivers; used as
a concrete input for evaluating the dispatcher model. -/
def demoEnv : ToolEnv := fun tool _ => tool == "sms"

/-! ### Helper lemmas -/

lemma getSeverity_finite_ne (d r : ℚ) (hr : r ≠ 0) :
    getSeverity (JSVal.finite d) (JSVal.finite r) =
      sevOfPercentage (d / r * 100) := by
  simp [getSeverity, jsDiv, jsMul, jsLe, hr, sevOfPercentage]

lemma sevOfPercentage_antitone (p1 p2 : ℚ) (h : p2 ≤ p1) :
    levelRank (sevOfPercentage p1) ≤ levelRank (sevOfPercentage p2) := by
  unfold sevOfPercentage
  split_ifs <;> simp [levelRank] <;> linarith

lemma scoreToLevel_mono (s1 s2 : ℚ) (h : s1 ≤ s2) :
    levelRank (scoreToLevel s1) ≤ levelRank (scoreToLevel s2) := by
  unfold scoreToLevel
  split_ifs <;> simp [levelRank] <;> linarith

lemma getSeverity_self (q : ℚ) :
    getSeverity (JSVal.finite q) (JSVal.finite q) = Level.low := by
  by_cases hq : q = 0
  · subst hq
    norm_num [getSeverity, jsDiv, jsMul, jsLe]
  · rw [getSeverity_finite_ne q q hq]
    unfold sevOfPercentage
    rw [div_self hq]
    norm_num

/-! ### Claim C1 -/

/-- C1 counterexample: `getSeverity` does not realize the spec thresholds
0.85/0.65/0.35.  At percentage 20 (distance 20, radius 100) the
corresponding proximity score is `1 - 20 / 100 = 0.8`, which the spec
mapping sends to HIGH, while `getSeverity` returns critical. -/
theorem C1_spec_thresholds_counterexample :
    getSeverity (JSVal.finite 20) (JSVal.finite 100) = Level.critical ∧
    scoreToLevel (1 - 20 / 100) = Level.high ∧
    Level.critical ≠ Level.high := by
  refine ⟨?_, ?_, by simp⟩
  · norm_num [getSeverity, jsDiv, jsMul, jsLe]
  · norm_num [scoreToLevel]

/-- C1 (amended): `getSeverity` classifies by fixed quartile thresholds on
the distance-to-radius percentage — `≤ 25` critical, `≤ 50` high, `≤ 75`
medium, else low — not by the spec thresholds 0.85/0.65/0.35. -/
theorem C1_getSeverity_quartile_thresholds (d r : ℚ) (hr : r ≠ 0) :
    (getSeverity (JSVal.finite d) (JSVal.finite r) = Level.critical ↔
      d / r * 100 ≤ 25) ∧
    (getSeverity (JSVal.finite d) (JSVal.finite r) = Level.high ↔
      25 < d / r * 100 ∧ d / r * 100 ≤ 50) ∧
    (getSeverity (JSVal.finite d) (JSVal.finite r) = Level.medium ↔
      50 < d / r * 100 ∧ d / r * 100 ≤ 75) ∧
    (getSeverity (JSVal.finite d) (JSVal.finite r) = Level.low ↔
      75 < d / r * 100) := by
  rw [getSeverity_finite_ne d r hr]
  unfold sevOfPercentage
  split_ifs with h1 h2 h3 <;>
    refine ⟨⟨fun h' => ?_, fun h' => ?_⟩, ⟨fun h' => ?_, fun h' => ?_⟩,
      ⟨fun h' => ?_, fun h' => ?_⟩, ⟨fun h' => ?_, fun h' => ?_⟩⟩ <;>
    simp_all <;> linarith

/-- C1 witness: the quartile characterization evaluated at distance 10,
radius 100 (percentage 10, hence critical). -/
theorem C1_getSeverity_quartile_thresholds_witness :
    getSeverity (JSVal.finite 10) (JSVal.finite 100) = Level.critical :=
  (C1_getSeverity_quartile_thresholds 10 100 (by norm_num)).1.mpr (by norm_num)

/-! ### Claim C4 -/

/-- C4: severity assignment is monotone.  For the spec mapping, a strictly
smaller score never gets a strictly greater level; for the implemented
`getSeverity`, a strictly larger distance (hence larger
distance-to-radius percentage, for the same positive radius) never gets a
strictly greater level, under CRITICAL > HIGH > MEDIUM > LOW. -/
theorem C4_severity_monotone (s1 s2 d1 d2 r : ℚ) (hs : s1 < s2) (hr : 0 < r)
    (hd : d2 < d1) :
    levelRank (scoreToLevel s1) ≤ levelRank (scoreToLevel s2) ∧
    levelRank (getSeverity (JSVal.finite d1) (JSVal.finite r)) ≤
      levelRank (getSeverity (JSVal.finite d2) (JSVal.finite r)) := by
  refine ⟨scoreToLevel_mono s1 s2 hs.le, ?_⟩
  rw [getSeverity_finite_ne d1 r (ne_of_gt hr),
    getSeverity_finite_ne d2 r (ne_of_gt hr)]
  refine sevOfPercentage_antitone _ _ ?_
  gcongr

/-- C4 witness: the monotonicity theorem evaluated at scores 0.3 < 0.9 and
distances 80 > 10 with radius 100. -/
theorem C4_severity_monotone_witness :
    levelRank (scoreToLevel 0.3) ≤ levelRank (scoreToLevel 0.9) ∧
    levelRank (getSeverity (JSVal.finite 80) (JSVal.finite 100)) ≤
      levelRank (getSeverity (JSVal.finite 10) (JSVal.finite 100)) :=
  C4_severity_monotone 0.3 0.9 80 10 100 (by norm_num) (by norm_num)
    (by norm_num)

/-! ### Claim C9 -/

/-- C9 counterexample: with `radiusKm = 0` the result is not low for every
distance — a negative distance divides to -Infinity, which passes the
`percentage <= 25` comparison, so `getSeverity(-1, 0)` is critical. -/
theorem C9_zero_radius_counterexample :
    getSeverity (JSVal.finite (-1)) (JSVal.finite 0) = Level.critical ∧
    Level.critical ≠ Level.low := by
  refine ⟨?_, by simp⟩
  norm_num [getSeverity, jsDiv, jsMul, jsLe]

/-- C9 (amended): `getSeverity` is total — every input yields one of the
four levels, nothing is thrown — and with `radiusKm = 0` the unguarded
division makes the percentage NaN (distance 0) or +Infinity (positive
distance), whose comparisons are all false, so every nonnegative distance
(including distance 0 at the epicenter) yields low; a negative distance
instead divides to -Infinity and yields critical. -/
theorem C9_total_and_zero_radius (distance radiusKm : JSVal) (q : ℚ)
    (hq : 0 ≤ q) :
    (getSeverity distance radiusKm = Level.low ∨
      getSeverity distance radiusKm = Level.medium ∨
      getSeverity distance radiusKm = Level.high ∨
      getSeverity distance radiusKm = Level.critical) ∧
    getSeverity (JSVal.finite q) (JSVal.finite 0) = Level.low := by
  constructor
  · simp only [getSeverity]
    split_ifs <;> simp
  · rcases eq_or_lt_of_le hq with hq0 | hq0
    · rw [← hq0]
      norm_num [getSeverity, jsDiv, jsMul, jsLe]
    · simp [getSeverity, jsDiv, jsMul, jsLe, hq0, not_lt_of_gt hq0]

/-- C9 witness: totality and the zero-radius rule evaluated at distance 3,
radius 0. -/
theorem C9_total_and_zero_radius_witness :
    (getSeverity (JSVal.finite 3) (JSVal.finite 0) = Level.low ∨
      getSeverity (JSVal.finite 3) (JSVal.finite 0) = Level.medium ∨
      getSeverity (JSVal.finite 3) (JSVal.finite 0) = Level.high ∨
      getSeverity (JSVal.finite 3) (JSVal.finite 0) = Level.critical) ∧
    getSeverity (JSVal.finite 3) (JSVal.finite 0) = Level.low :=
  C9_total_and_zero_radius (JSVal.finite 3) (JSVal.finite 0) 3 (by norm_num)

/-! ### Claim C10 -/

/-- C10: the two haversine implementations — `calculateDistance` in the
dashboard geo-utilities and the inline `calculateDistance` of the
evacuation/map components — compute the same distance for every pair of
locations. -/
theorem C10_haversine_equivalence (p1 p2 : Location) :
    calculateDistance p1 p2 = calculateDistanceEvac p1 p2 := by
  have hrad : toRad = toRadEvac := funext fun x => by
    unfold toRad toRadEvac; ring
  simp only [calculateDistance, calculateDistanceEvac, hrad]
  ring_nf

/-! ### Claim C8 -/

lemma calculateDistance_origin : calculateDistance ⟨0, 0⟩ ⟨0, 0⟩ = 0 := by
  simp [calculateDistance, toRad, jsAtan2]

/-- C8: the threat-zone boundary is inclusive but lowest-severity.  A user
whose haversine distance to the center equals the radius exactly is inside
the threat zone (`distance <= radiusKm`), while `getSeverity` at that
boundary distance (distance equal to radius, any rational value) returns
low — percentage 100 when the radius is nonzero, NaN comparisons when it
is zero. -/
theorem C8_boundary_inclusive_lowest (u c : Location) (r : ℝ) (q : ℚ)
    (h : calculateDistance u c = r) :
    isInThreatZone u c r ∧
    getSeverity (JSVal.finite q) (JSVal.finite q) = Level.low := by
  refine ⟨?_, getSeverity_self q⟩
  unfold isInThreatZone
  exact le_of_eq h

/-- C8 witness: a user at the threat center with radius 0 is at boundary
distance (distance 0 = radius 0) and classified in the zone; the boundary
severity is low, evaluated at distance = radius = 7. -/
theorem C8_boundary_inclusive_lowest_witness :
    isInThreatZone ⟨0, 0⟩ ⟨0, 0⟩ 0 ∧
    getSeverity (JSVal.finite 7) (JSVal.finite 7) = Level.low :=
  C8_boundary_inclusive_lowest ⟨0, 0⟩ ⟨0, 0⟩ 0 7 calculateDistance_origin

/-! ### Claim C2 -/

/-- C2: for every context with a missing required scoring input, the
Prioritizer returns level HIGH with the non-empty uncertainty note appended
to the reasoning.  `analyze_priority` is a total function — it never
raises. -/
theorem C2_partial_context_defaults_high (context : StructuredContext)
    (h : context.missing ≠ []) :
    (analyze_priority context).level = Level.high ∧
    (analyze_priority context).reasoning = baseReasoning ++ uncertaintyNote ∧
    uncertaintyNote ≠ "" := by
  have hne : ¬ context.missing.isEmpty := by
    simpa [List.isEmpty_iff] using h
  refine ⟨?_, ?_, by simp [uncertaintyNote]⟩ <;> simp [analyze_priority, hne]

/-- C2 witness: the default-to-HIGH behavior evaluated on a concrete
context missing its routes input. -/
theorem C2_partial_context_defaults_high_witness :
    (analyze_priority ⟨0.5, 0.5, 0.5, 0.5, [FieldName.routes]⟩).level =
      Level.high ∧
    (analyze_priority ⟨0.5, 0.5, 0.5, 0.5, [FieldName.routes]⟩).reasoning =
      baseReasoning ++ uncertaintyNote ∧
    uncertaintyNote ≠ "" :=
  C2_partial_context_defaults_high ⟨0.5, 0.5, 0.5, 0.5, [FieldName.routes]⟩
    (by simp)

/-! ### Claim C3 -/

/-- C3: `dispatch_alerts` returns ALL_FAILED only if every tool in the
selected preference list exhausted its retry budget; a single successful
tool makes the aggregate outcome at least PARTIAL (never ALL_FAILED); and
an ALL_FAILED outcome is escalated to the Agent as a reportable failure,
never swallowed. -/
theorem C3_all_failed_only_if_exhausted (env : ToolEnv) (tools : List String)
    (budget : Nat) :
    (((dispatch_alerts env tools budget).overall = DispatchStatus.ALL_FAILED) →
      ∀ t ∈ tools, toolDelivered env t budget = false) ∧
    ((∃ t ∈ tools, toolDelivered env t budget = true) →
      (dispatch_alerts env tools budget).overall ≠ DispatchStatus.ALL_FAILED ∧
      1 ≤ statusRank (dispatch_alerts env tools budget).overall) ∧
    (((dispatch_alerts env tools budget).overall = DispatchStatus.ALL_FAILED) →
      (escalateOutcome (dispatch_alerts env tools budget)).isSome = true) := by
  have hov : (dispatch_alerts env tools budget).overall =
      if tools.any (fun t => toolDelivered env t budget) then
        if tools.all (fun t => toolDelivered env t budget) then
          DispatchStatus.ALL_DELIVERED
        else DispatchStatus.SOME_DELIVERED
      else DispatchStatus.ALL_FAILED := by
    simp [dispatch_alerts, List.any_map, List.all_map, Function.comp]
  by_cases hany : tools.any (fun t => toolDelivered env t budget) = true
  · have hne : (dispatch_alerts env tools budget).overall ≠
        DispatchStatus.ALL_FAILED := by
      rw [hov]
      simp only [hany, if_true]
      split_ifs <;> simp
    refine ⟨fun h => absurd h hne, fun _ => ⟨hne, ?_⟩, fun h => absurd h hne⟩
    rw [hov]
    simp only [hany, if_true]
    split_ifs <;> simp [statusRank]
  · have hall : ∀ t ∈ tools, toolDelivered env t budget = false := by
      simpa [List.any_eq_true] using hany
    have hov' : (dispatch_alerts env tools budget).overall =
        DispatchStatus.ALL_FAILED := by
      rw [hov]
      simp only [Bool.not_eq_true] at hany
      simp [hany]
    refine ⟨fun _ => hall, fun hex => ?_, fun _ => ?_⟩
    · obtain ⟨t, ht, hdel⟩ := hex
      rw [hall t ht] at hdel
      exact absurd hdel (by simp)
    · simp [escalateOutcome, hov']

/-- C3 witness: in an environment where only the `sms` channel delivers,
dispatching over the list `[sms, push]` yields an outcome that is at least
PARTIAL and not ALL_FAILED. -/
theorem C3_all_failed_only_if_exhausted_witness :
    (dispatch_alerts demoEnv ["sms", "push"] 3).overall ≠
      DispatchStatus.ALL_FAILED ∧
    1 ≤ statusRank (dispatch_alerts demoEnv ["sms", "push"] 3).overall :=
  (C3_all_failed_only_if_exhausted demoEnv ["sms", "push"] 3).2.1
    ⟨"sms", by simp, by
      simp only [toolDelivered, demoEnv, List.any_eq_true, List.mem_range]
      exact ⟨0, by norm_num, by simp⟩⟩

/-! ### Claim C5 -/

lemma routeLe_trans (a b c : EvacuationRoute) (h1 : routeLe a b = true)
    (h2 : routeLe b c = true) : routeLe a c = true := by
  simp only [routeLe, decide_eq_true_eq] at *
  linarith

lemma routeLe_total (a b : EvacuationRoute) :
    (routeLe a b || routeLe b a) = true := by
  simp only [routeLe, Bool.or_eq_true, decide_eq_true_eq]
  exact le_total _ _

lemma urgencyLe_trans (a b c : RankedInput) (h1 : urgencyLe a b = true)
    (h2 : urgencyLe b c = true) : urgencyLe a c = true := by
  simp only [urgencyLe, decide_eq_true_eq] at *
  rcases h1 with h1 | ⟨h1e, h1s⟩ <;> rcases h2 with h2 | ⟨h2e, h2s⟩
  · exact Or.inl (h2.trans h1)
  · exact Or.inl (by omega)
  · exact Or.inl (by omega)
  · refine Or.inr ⟨by omega, ?_⟩
    rcases h1s with h1s | ⟨h1se, h1st⟩ <;> rcases h2s with h2s | ⟨h2se, h2st⟩
    · exact Or.inl (h2s.trans h1s)
    · exact Or.inl (h2se ▸ h1s)
    · exact Or.inl (h1se ▸ h2s)
    · exact Or.inr ⟨h1se.trans h2se, h1st.trans h2st⟩

lemma urgencyLe_total (a b : RankedInput) :
    (urgencyLe a b || urgencyLe b a) = true := by
  simp only [urgencyLe, Bool.or_eq_true, decide_eq_true_eq]
  rcases lt_trichotomy (levelRank a.level) (levelRank b.level) with h | h | h
  · exact Or.inr (Or.inl h)
  · rcases lt_trichotomy a.score b.score with hs | hs | hs
    · exact Or.inr (Or.inr ⟨h.symm, Or.inl hs⟩)
    · rcases Nat.le_total a.timestamp b.timestamp with ht | ht
      · exact Or.inl (Or.inr ⟨h, Or.inr ⟨hs, ht⟩⟩)
      · exact Or.inr (Or.inr ⟨h.symm, Or.inr ⟨hs.symm, ht⟩⟩)
    · exact Or.inl (Or.inr ⟨h, Or.inl hs⟩)
  · exact Or.inl (Or.inl h)

/-- C5: ranking is deterministic.  The implemented analog (sorting fetched
safe locations by ascending `distance_km`, then truncating to four) and the
spec ranking of concurrent disasters are pure functions — the same input
always yields the same ordering — and ties are broken deterministically by
the stable sort: the output is sorted under the respective total order and
the full ranking is a permutation of its input. -/
theorem C5_deterministic_ranking (allRoutes : List EvacuationRoute)
    (contexts : List RankedInput) :
    rankRoutes allRoutes = rankRoutes allRoutes ∧
    List.Pairwise (fun a b => routeLe a b = true) (rankRoutes allRoutes) ∧
    rank_concurrent_disasters contexts = rank_concurrent_disasters contexts ∧
    List.Pairwise (fun a b => urgencyLe a b = true)
      (rank_concurrent_disasters contexts) ∧
    (rank_concurrent_disasters contexts).Perm contexts := by
  refine ⟨rfl, ?_, rfl, ?_, ?_⟩
  · exact List.Pairwise.sublist (List.take_sublist _ _)
      (List.sorted_mergeSort routeLe_trans routeLe_total allRoutes)
  · exact List.sorted_mergeSort urgencyLe_trans urgencyLe_total contexts
  · exact List.mergeSort_perm contexts urgencyLe

/-! ### Claim C6 -/

/-- C6: an invalid trigger fails without mutating state.  For every form
with latitude outside [-90, 90], longitude outside [-180, 180] or radius
below 100 meters, `handleSubmit` reports a validation error, does not
invoke the dispatch API, and leaves the disaster list unchanged. -/
theorem C6_invalid_trigger_no_mutation (formData : TriggerDisasterRequest)
    (apiOk : Bool) (nowMs : Nat) (nowIso : String) (prev : List Disaster)
    (h : formData.latitude < -90 ∨ formData.latitude > 90 ∨
      formData.longitude < -180 ∨ formData.longitude > 180 ∨
      formData.radius_meters < 100) :
    (handleSubmit formData apiOk nowMs nowIso prev).error.isSome = true ∧
    (handleSubmit formData apiOk nowMs nowIso prev).apiInvoked = false ∧
    (handleSubmit formData apiOk nowMs nowIso prev).disasters = prev := by
  unfold handleSubmit
  split_ifs with h1 h2 h3 <;> simp_all

/-- C6 witness: a trigger with latitude 200 (outside [-90, 90]) is
rejected without any state change. -/
theorem C6_invalid_trigger_no_mutation_witness :
    (handleSubmit ⟨"Flood", 200, 0, 1000⟩ true 5 "t" []).error.isSome = true ∧
    (handleSubmit ⟨"Flood", 200, 0, 1000⟩ true 5 "t" []).apiInvoked = false ∧
    (handleSubmit ⟨"Flood", 200, 0, 1000⟩ true 5 "t" []).disasters = [] :=
  C6_invalid_trigger_no_mutation ⟨"Flood", 200, 0, 1000⟩ true 5 "t" []
    (Or.inr (Or.inl (by norm_num)))

/-! ### Claim C7 -/

lemma handleSubmit_disasters (t : TriggerAttempt) (prev : List Disaster) :
    (handleSubmit t.formData t.apiOk t.nowMs t.nowIso prev).disasters =
      if acceptedTrigger t then
        prev ++ [mkDisaster t.formData t.nowMs t.nowIso]
      else prev := by
  unfold handleSubmit acceptedTrigger
  split_ifs with h1 h2 h3 h4 <;> simp_all

lemma runTriggersFrom_spec (ts : List TriggerAttempt)
    (registry : List Disaster) :
    runTriggersFrom registry ts =
      registry ++ (ts.filter acceptedTrigger).map
        (fun t => mkDisaster t.formData t.nowMs t.nowIso) := by
  induction ts generalizing registry with
  | nil => simp [runTriggersFrom]
  | cons t ts ih =>
      rw [runTriggersFrom, handleSubmit_disasters, ih]
      by_cases h : acceptedTrigger t = true
      · simp [h, List.filter_cons]
      · simp [h, List.filter_cons]

/-- C7 counterexample: the registry does not enforce at-most-one record per
disaster id.  Two accepted triggers submitted in the same millisecond
(`Date.now() = 1000` for both) are both appended, and the registry holds
two records with the same id `"1000"`. -/
theorem C7_duplicate_id_counterexample :
    ((runTriggers [⟨⟨"Flood", 10, 20, 500⟩, true, 1000, "t"⟩,
        ⟨⟨"Flood", 10, 20, 500⟩, true, 1000, "t"⟩]).map Disaster.id) =
      ["1000", "1000"] ∧
    ¬ ((runTriggers [⟨⟨"Flood", 10, 20, 500⟩, true, 1000, "t"⟩,
        ⟨⟨"Flood", 10, 20, 500⟩, true, 1000, "t"⟩]).map Disaster.id).Nodup := by
  constructor
  · norm_num [runTriggers, runTriggersFrom, handleSubmit, mkDisaster]
    decide
  · norm_num [runTriggers, runTriggersFrom, handleSubmit, mkDisaster]

/-- C7 (amended): record ids are unique only through the trigger
timestamps.  The registry appends every accepted trigger without
rejection or coalescing; since a record id is exactly
`Date.now().toString()` at submission, the registry holds pairwise-distinct
ids whenever the accepted triggers have pairwise-distinct timestamp
strings — and two accepted triggers in the same millisecond are stored
twice with the same id. -/
theorem C7_distinct_timestamps_unique_ids (ts : List TriggerAttempt)
    (h : ((ts.filter acceptedTrigger).map
      (fun t => toString t.nowMs)).Nodup) :
    ((runTriggers ts).map Disaster.id).Nodup := by
  unfold runTriggers
  rw [runTriggersFrom_spec]
  simpa [List.map_map, Function.comp, mkDisaster] using h

/-- C7 witness: two accepted triggers at distinct milliseconds 1000 and
1001 produce a registry with distinct ids. -/
theorem C7_distinct_timestamps_unique_ids_witness :
    ((runTriggers [⟨⟨"Flood", 10, 20, 500⟩, true, 1000, "t"⟩,
        ⟨⟨"Flood", 10, 20, 500⟩, true, 1001, "u"⟩]).map Disaster.id).Nodup :=
  C7_distinct_timestamps_unique_ids _ (by norm_num [acceptedTrigger]; decide)
